import Mathlib

/-!
Verification of the supervisory core of the Firezone headless client
(`rust/headless-client/src/standalone.rs`).

The development is a shallow embedding of two phases of
`run_only_headless_client`:

1. the credential (token) resolution path (`get_token`, `read_token_file`
   and the startup code around them), and
2. the supervisor event loop: the `rt.block_on(async { ... })` body with its
   five-way `futures::select!`, callback dispatch, and teardown, followed by
   the unconditional `session.disconnect()`.

External collaborators (DNS controller, tunnel device manager, notifiers,
the Control Session) are modelled by recording each command issued to them
in a trace, with the outcome of each fallible call supplied as part of the
input (an environment oracle).
-/

namespace Standalone

/-! ## Token resolution (`get_token`, `read_token_file`)

The process environment is modelled as the value of the single variable
`TOKEN_ENV_KEY` (`Option String`, `none` when unset), the filesystem as a
partial map from paths to token-file records.  `std::fs::metadata` failure is
`none`; `platform::check_token_permissions` and `std::fs::read` outcomes are
the `permsOk` / `readable` fields of the record. -/

/-- The environment variable holding the token.  The constant is declared in
the crate root of `headless-client` (outside the provided file); its value is
`"FIREZONE_TOKEN"` upstream.  No claim depends on the exact value. -/
def TOKEN_ENV_KEY : String := "FIREZONE_TOKEN"

/-- Filesystem paths, opaque. -/
abbrev Path := String

/-- A token file on disk, as observed by `read_token_file`: raw bytes, whether
`platform::check_token_permissions` succeeds, and whether `std::fs::read`
succeeds after the `std::fs::metadata` check. -/
structure TokenFile where
  bytes : List Nat
  permsOk : Bool
  readable : Bool
  deriving DecidableEq, Repr

/-- The filesystem: `none` means `std::fs::metadata(path)` errors (file
absent). -/
abbrev FileSystem := Path → Option TokenFile

/-- Rust `char::is_whitespace`: the Unicode `White_Space` property. -/
def rustIsWhitespace (c : Char) : Bool :=
  let n := c.toNat
  (0x9 ≤ n && n ≤ 0xD) || n == 0x20 || n == 0x85 || n == 0xA0 || n == 0x1680 ||
  (0x2000 ≤ n && n ≤ 0x200A) || n == 0x2028 || n == 0x2029 || n == 0x202F ||
  n == 0x205F || n == 0x3000

/-- Rust `str::trim`: strip leading and trailing whitespace. -/
def rustTrim (s : String) : String :=
  String.mk (((s.data.dropWhile rustIsWhitespace).reverse.dropWhile
      rustIsWhitespace).reverse)

/-- Strict UTF-8 decoding, as performed by Rust `String::from_utf8`:
rejects truncated sequences, stray continuation bytes, overlong encodings,
surrogates and code points above `U+10FFFF`.  `none` models
`FromUtf8Error`. -/
def utf8DecodeChars : List Nat → Option (List Char)
  | [] => some []
  | b0 :: rest =>
    if b0 < 0x80 then
      (utf8DecodeChars rest).map (fun cs => Char.ofNat b0 :: cs)
    else if b0 < 0xC2 then
      none
    else if b0 < 0xE0 then
      match rest with
      | [] => none
      | b1 :: rest1 =>
        if 0x80 ≤ b1 && b1 < 0xC0 then
          (utf8DecodeChars rest1).map
            (fun cs => Char.ofNat ((b0 - 0xC0) * 0x40 + (b1 - 0x80)) :: cs)
        else none
    else if b0 < 0xF0 then
      match rest with
      | [] => none
      | [_] => none
      | b1 :: b2 :: rest2 =>
        let lo1 := if b0 == 0xE0 then 0xA0 else 0x80
        let hi1 := if b0 == 0xED then 0xA0 else 0xC0
        if (lo1 ≤ b1 && b1 < hi1) && (0x80 ≤ b2 && b2 < 0xC0) then
          (utf8DecodeChars rest2).map
            (fun cs =>
              Char.ofNat ((b0 - 0xE0) * 0x1000 + (b1 - 0x80) * 0x40 +
                (b2 - 0x80)) :: cs)
        else none
    else if b0 < 0xF5 then
      match rest with
      | [] => none
      | [_] => none
      | [_, _] => none
      | b1 :: b2 :: b3 :: rest3 =>
        let lo1 := if b0 == 0xF0 then 0x90 else 0x80
        let hi1 := if b0 == 0xF4 then 0x90 else 0xC0
        if (lo1 ≤ b1 && b1 < hi1) && (0x80 ≤ b2 && b2 < 0xC0) &&
            (0x80 ≤ b3 && b3 < 0xC0) then
          (utf8DecodeChars rest3).map
            (fun cs =>
              Char.ofNat ((b0 - 0xF0) * 0x40000 + (b1 - 0x80) * 0x1000 +
                (b2 - 0x80) * 0x40 + (b3 - 0x80)) :: cs)
        else none
    else none

/-- `String::from_utf8` on the file bytes. -/
def utf8DecodeString (bs : List Nat) : Option String :=
  (utf8DecodeChars bs).map String.mk

/-- Errors the credential loader can return (`Err(_)` of
`get_token` / `read_token_file`). -/
inductive TokenError where
  /-- `platform::check_token_permissions` failed. -/
  | permissionDenied
  /-- `String::from_utf8` failed. -/
  | invalidUtf8
  deriving DecidableEq, Repr

/-- `read_token_file` (standalone.rs:311-341).  Input: current environment
value of `TOKEN_ENV_KEY`, the filesystem, the path.  Output: the
`Result<Option<SecretString>>` together with the environment value after the
call (`std::env::remove_var` is the only mutation). -/
def read_token_file (env : Option String) (fs : FileSystem) (path : Path) :
    Except TokenError (Option String) × Option String :=
  match env with
  | some token =>
    -- `std::env::var` succeeded: remove the var, return the token,
    -- ignoring any token on disk.
    (.ok (some token), none)
  | none =>
    match fs path with
    | none =>
      -- `std::fs::metadata(path)` errored.
      (.ok none, none)
    | some f =>
      if f.permsOk = false then (.error .permissionDenied, none)
      else if f.readable = false then
        -- metadata existed but the read failed: degrade to `Ok(None)`.
        (.ok none, none)
      else
        match utf8DecodeString f.bytes with
        | none => (.error .invalidUtf8, none)
        | some s => (.ok (some (rustTrim s)), none)

/-- `get_token` (standalone.rs:297-306). -/
def get_token (token_env_var : Option String) (env : Option String)
    (fs : FileSystem) (path : Path) :
    Except TokenError (Option String) × Option String :=
  match token_env_var with
  | some token => (.ok (some token), env)
  | none => read_token_file env fs path

/-- The token phase of `run_only_headless_client` (standalone.rs:96-115,136):
clap fills `cli.token` from the hidden positional argument, falling back to
the `TOKEN_ENV_KEY` environment variable; `cli.token.take()` captures it,
`std::env::remove_var(TOKEN_ENV_KEY)` scrubs the variable, then `get_token`
runs against the now-empty environment. -/
def resolveTokenAtStartup (cliArg envVal : Option String) (fs : FileSystem)
    (path : Path) : Except TokenError (Option String) × Option String :=
  let token_env_var := cliArg.orElse (fun _ => envVal)
  let envAfterRemove : Option String := none
  get_token token_env_var envAfterRemove fs path

/-- The startup error for a missing token (standalone.rs:136-141). -/
inductive StartupTokenError where
  /-- `get_token` itself returned `Err(_)`. -/
  | loader (e : TokenError)
  /-- `get_token` returned `Ok(None)`; the `with_context` message. -/
  | noToken (msg : String)
  deriving DecidableEq, Repr

/-- The `with_context` message of standalone.rs:137-140. -/
def noTokenMessage (path : Path) : String :=
  "Can\x27t find the Firezone token in $" ++ TOKEN_ENV_KEY ++ " or in `" ++
    path ++ "`"

/-- Token resolution plus the caller's conversion of `Ok(None)` into a fatal
startup error (standalone.rs:136-141). -/
def startupToken (cliArg envVal : Option String) (fs : FileSystem)
    (path : Path) : Except StartupTokenError String × Option String :=
  match resolveTokenAtStartup cliArg envVal fs path with
  | (.ok (some t), env) => (.ok t, env)
  | (.ok none, env) => (.error (.noToken (noTokenMessage path)), env)
  | (.error e, env) => (.error (.loader e), env)

/-! ## The supervisor event loop (standalone.rs:189-288)

The surrounding world is an oracle: each fallible external call's result
travels with the event (for in-loop calls) or in a `Startup` record (for the
calls made before the loop).  Commands issued to the collaborators are
recorded in a trace. -/

/-- A command issued to an external collaborator, in program order. -/
inductive Cmd where
  /-- `dns_controller.deactivate()` (line 197). -/
  | deactivateDns
  /-- `tun_device.make_tun()` (line 210). -/
  | makeTun
  /-- `session.set_tun(...)` (line 211). -/
  | setTun
  /-- `session.set_dns(resolvers)` (lines 212 and 233). -/
  | sessionSetDns (resolvers : List String)
  /-- `session.reset()` (lines 225 and 239). -/
  | sessionReset
  /-- `dns_controller.flush()` (line 253). -/
  | dnsFlush
  /-- `tun_device.set_ips(ipv4, ipv6)` (line 259). -/
  | tunSetIps (ipv4 ipv6 : String)
  /-- `dns_controller.set_dns(&dns)` (line 260). -/
  | dnsSetDns (dns : List String)
  /-- `platform::notify_service_controller()` (line 266). -/
  | notifyServiceController
  /-- `tun_device.set_routes(ipv4, ipv6)` (line 274). -/
  | tunSetRoutes (ipv4 ipv6 : List String)
  /-- `network_notifier.close()` (line 279). -/
  | notifierClose
  /-- `session.disconnect()` (line 286). -/
  | sessionDisconnect
  deriving DecidableEq, Repr

/-- An error that ends the event loop. -/
inductive LoopError where
  /-- `break Err(anyhow!(error_msg).context("Firezone disconnected"))`
  (line 250): carries the `OnDisconnect` reason. -/
  | disconnected (reason : String)
  /-- An error propagated by `?` from an external call or from the
  `cb_rx unexpectedly ran empty` context (lines 229, 233, 242, 253, 259,
  260, 266, 274, and the pre-loop `?`s). -/
  | ext (msg : String)
  deriving DecidableEq, Repr

instance {ε α : Type} [DecidableEq ε] [DecidableEq α] :
    DecidableEq (Except ε α) := fun a b =>
  match a, b with
  | .ok x, .ok y =>
    if h : x = y then .isTrue (h ▸ rfl)
    else .isFalse (fun hh => h (Except.ok.inj hh))
  | .error x, .error y =>
    if h : x = y then .isTrue (h ▸ rfl)
    else .isFalse (fun hh => h (Except.error.inj hh))
  | .ok _, .error _ => .isFalse (fun hh => Except.noConfusion hh)
  | .error _, .ok _ => .isFalse (fun hh => Except.noConfusion hh)

/-- Messages of the Control Session callback stream
(`InternalServerMsg`, lines 245-276).  Each message that triggers fallible
external calls carries the oracle results of those calls. -/
inductive Msg where
  /-- `Ipc(OnDisconnect { error_msg, is_authentication_error })`. -/
  | onDisconnect (error_msg : String) (is_authentication_error : Bool)
  /-- `Ipc(OnUpdateResources(_))`; carries the result of
  `dns_controller.flush()`. -/
  | onUpdateResources (flushRes : Except String Unit)
  /-- `Ipc(TerminatingGracefully)`. -/
  | terminatingGracefully
  /-- `OnSetInterfaceConfig { ipv4, ipv6, dns }`; carries results of
  `tun_device.set_ips`, `dns_controller.set_dns` and
  `platform::notify_service_controller`. -/
  | onSetInterfaceConfig (ipv4 ipv6 : String) (dns : List String)
      (setIpsRes setDnsRes notifyRes : Except String Unit)
  /-- `OnUpdateRoutes { ipv4, ipv6 }`; carries the result of
  `tun_device.set_routes`. -/
  | onUpdateRoutes (ipv4 ipv6 : List String) (setRoutesRes : Except String Unit)
  deriving DecidableEq, Repr

/-- One firing of the five-way `futures::select!` (lines 218-243): which
source fired, with the oracle results of the calls its arm makes. -/
inductive Event where
  /-- The terminate signal (SIGINT / SIGTERM / Ctrl+C). -/
  | terminate
  /-- The hangup signal (SIGHUP). -/
  | hangup
  /-- `dns_notifier.notified()` resolved with `notifyRes`; `resolvers` is
  the result of the subsequent `dns_control::system_resolvers()`. -/
  | dnsChanged (notifyRes : Except String Unit)
      (resolvers : Except String (List String))
  /-- `network_notifier.notified()` resolved with `notifyRes`. -/
  | networkChanged (notifyRes : Except String Unit)
  /-- `cb_rx.next()` returned `None`: the callback stream ended. -/
  | cbClosed
  /-- `cb_rx.next()` returned a message. -/
  | cbMsg (m : Msg)
  deriving DecidableEq, Repr

/-- Mutable loop state: whether `last_connlib_start_instant` is still
`Some` (line 169, taken at line 263). -/
structure LoopState where
  instant : Bool
  deriving DecidableEq, Repr

/-- Outcome of one loop iteration. -/
inductive StepOut where
  /-- `continue` (explicit or falling out of the `match`). -/
  | cont (s : LoopState) (t : List Cmd)
  /-- `break Ok(())` (lines 221, 270). -/
  | brkOk (t : List Cmd)
  /-- `break Err(..)` (line 250). -/
  | brkErr (e : LoopError) (t : List Cmd)
  /-- `?` propagation: returns from the `async` block, past the loop AND
  past the `network_notifier.close()` call. -/
  | prop (e : LoopError) (t : List Cmd)
  /-- `unimplemented!` (line 255): process abort by panic. -/
  | aborted (msg : String) (t : List Cmd)
  deriving DecidableEq, Repr

/-- One iteration of the loop body (lines 214-277). `exit` is `cli.exit`. -/
def step (exit : Bool) (s : LoopState) : Event → StepOut
  | .terminate => .brkOk []
  | .hangup => .cont s [.sessionReset]
  | .dnsChanged notifyRes resolvers =>
    match notifyRes with
    | .error e => .prop (.ext e) []
    | .ok () =>
      match resolvers with
      | .error e => .prop (.ext e) []
      | .ok rs => .cont s [.sessionSetDns rs]
  | .networkChanged notifyRes =>
    match notifyRes with
    | .error e => .prop (.ext e) []
    | .ok () => .cont s [.sessionReset]
  | .cbClosed => .prop (.ext "cb_rx unexpectedly ran empty") []
  | .cbMsg (.onDisconnect error_msg _) => .brkErr (.disconnected error_msg) []
  | .cbMsg (.onUpdateResources flushRes) =>
    match flushRes with
    | .error e => .prop (.ext e) [.dnsFlush]
    | .ok () => .cont s [.dnsFlush]
  | .cbMsg .terminatingGracefully =>
    .aborted "The standalone Client does not send `TerminatingGracefully` messages" []
  | .cbMsg (.onSetInterfaceConfig ipv4 ipv6 dns setIpsRes setDnsRes notifyRes) =>
    match setIpsRes with
    | .error e => .prop (.ext e) [.tunSetIps ipv4 ipv6]
    | .ok () =>
      match setDnsRes with
      | .error e => .prop (.ext e) [.tunSetIps ipv4 ipv6, .dnsSetDns dns]
      | .ok () =>
        if s.instant then
          match notifyRes with
          | .error e =>
            .prop (.ext e)
              [.tunSetIps ipv4 ipv6, .dnsSetDns dns, .notifyServiceController]
          | .ok () =>
            let t := [Cmd.tunSetIps ipv4 ipv6, .dnsSetDns dns,
              .notifyServiceController]
            if exit then .brkOk t else .cont ⟨false⟩ t
        else
          let t := [Cmd.tunSetIps ipv4 ipv6, .dnsSetDns dns]
          if exit then .brkOk t else .cont s t
  | .cbMsg (.onUpdateRoutes ipv4 ipv6 setRoutesRes) =>
    match setRoutesRes with
    | .error e => .prop (.ext e) [.tunSetRoutes ipv4 ipv6]
    | .ok () => .cont s [.tunSetRoutes ipv4 ipv6]

/-- How the loop was left. -/
inductive LoopExit where
  /-- `break` with a `Result` value: control reaches line 279. -/
  | brk (r : Except LoopError Unit)
  /-- `?` propagation out of the `async` block: skips line 279. -/
  | prop (e : LoopError)
  /-- `unimplemented!` panic. -/
  | aborted (msg : String)
  /-- The supplied event schedule ran out with the loop still blocked in
  `select!`; `s` is the loop state at that point. -/
  | pending (s : LoopState)
  deriving DecidableEq, Repr

/-- Run the loop over a schedule of events. -/
def runLoop (exit : Bool) : LoopState → List Event → LoopExit × List Cmd
  | s, [] => (.pending s, [])
  | s, ev :: rest =>
    match step exit s ev with
    | .cont s2 t =>
      let r := runLoop exit s2 rest
      (r.1, t ++ r.2)
    | .brkOk t => (.brk (.ok ()), t)
    | .brkErr e t => (.brk (.error e), t)
    | .prop e t => (.prop e, t)
    | .aborted m t => (.aborted m, t)

/-- Oracle results for the calls made between `rt.block_on` entry and the
loop (lines 190-212), plus the `network_notifier.close()` result.
`systemResolvers` is the startup `system_resolvers().unwrap_or_default()`
(line 212), which cannot fail. -/
structure Startup where
  terminateNew : Except String Unit
  hangupNew : Except String Unit
  deactivate : Except String Unit
  tunDeviceManagerNew : Except String Unit
  dnsNotifierNew : Except String Unit
  networkNotifierNew : Except String Unit
  makeTun : Except String Unit
  systemResolvers : List String
  /-- Result of `network_notifier.close()`: only logged (lines 279-281),
  never read by the control flow. -/
  notifierClose : Except String Unit
  deriving DecidableEq, Repr

/-- All pre-loop calls succeed. -/
def Startup.allOk (su : Startup) : Prop :=
  su.terminateNew = .ok () ∧ su.hangupNew = .ok () ∧ su.deactivate = .ok () ∧
  su.tunDeviceManagerNew = .ok () ∧ su.dnsNotifierNew = .ok () ∧
  su.networkNotifierNew = .ok () ∧ su.makeTun = .ok ()

/-- Commands issued before the loop when startup succeeds
(lines 197, 210, 211, 212). -/
def startupTrace (su : Startup) : List Cmd :=
  [.deactivateDns, .makeTun, .setTun, .sessionSetDns su.systemResolvers]

/-- Final outcome of `run_only_headless_client` from `rt.block_on` on. -/
inductive RunOutcome where
  /-- `result` was `Ok(())`. -/
  | ok
  /-- `result` was `Err(..)`. -/
  | err (e : LoopError)
  /-- The async block panicked (`unimplemented!`); the panic propagates
  through `rt.block_on`, so `session.disconnect()` never runs. -/
  | aborted (msg : String)
  /-- The event schedule ran out with the loop still blocked. -/
  | pending
  deriving DecidableEq, Repr

/-- What happens after the loop is left (lines 279-288): on a `break`
(`LoopExit.brk`) the notifier is closed (its error only logged) and the loop
value becomes `result`; on a `?` propagation the close is skipped; on an
`unimplemented!` the panic propagates through `rt.block_on` and
`session.disconnect()` never runs.  `session.disconnect()` (line 286) runs
whenever `rt.block_on` returns. -/
def postLoop (su : Startup) : LoopExit × List Cmd → RunOutcome × List Cmd
  | (.pending _, t) => (.pending, startupTrace su ++ t)
  | (.aborted m, t) => (.aborted m, startupTrace su ++ t)
  | (.prop e, t) => (.err e, startupTrace su ++ t ++ [.sessionDisconnect])
  | (.brk (.ok ()), t) =>
    (.ok, startupTrace su ++ t ++ [.notifierClose, .sessionDisconnect])
  | (.brk (.error e), t) =>
    (.err e, startupTrace su ++ t ++ [.notifierClose, .sessionDisconnect])

/-- The `rt.block_on(async { ... })` body (lines 189-284) followed by
`session.disconnect()` (line 286).  A `?` failure anywhere inside the async
block returns from the block — skipping `network_notifier.close()` when it
fires after line 214 — but `session.disconnect()` still runs. -/
def run (exit : Bool) (su : Startup) (events : List Event) :
    RunOutcome × List Cmd :=
  match su.terminateNew with
  | .error e => (.err (.ext e), [.sessionDisconnect])
  | .ok () =>
  match su.hangupNew with
  | .error e => (.err (.ext e), [.sessionDisconnect])
  | .ok () =>
  match su.deactivate with
  | .error e => (.err (.ext e), [.deactivateDns, .sessionDisconnect])
  | .ok () =>
  match su.tunDeviceManagerNew with
  | .error e => (.err (.ext e), [.deactivateDns, .sessionDisconnect])
  | .ok () =>
  match su.dnsNotifierNew with
  | .error e => (.err (.ext e), [.deactivateDns, .sessionDisconnect])
  | .ok () =>
  match su.networkNotifierNew with
  | .error e => (.err (.ext e), [.deactivateDns, .sessionDisconnect])
  | .ok () =>
  match su.makeTun with
  | .error e => (.err (.ext e), [.deactivateDns, .makeTun, .sessionDisconnect])
  | .ok () =>
  postLoop su (runLoop exit ⟨true⟩ events)

/-- The trace component of a step outcome. -/
def StepOut.trace : StepOut → List Cmd
  | .cont _ t => t
  | .brkOk t => t
  | .brkErr _ t => t
  | .prop _ t => t
  | .aborted _ t => t

/-- A concrete `Startup` record with every pre-loop call succeeding and an
empty system resolver list. -/
def suOk : Startup :=
  ⟨.ok (), .ok (), .ok (), .ok (), .ok (), .ok (), .ok (), [], .ok ()⟩

/-- A concrete token path (the default path of the Linux headless client). -/
def tokenPath : Path := "/etc/dev.firezone.client/token"

/-- A token file whose bytes are the UTF-8 text of two spaces, then
`secret-token`, then a newline, with owner-only permissions. -/
def secretTokenFile : TokenFile :=
  ⟨[0x20, 0x20, 0x73, 0x65, 0x63, 0x72, 0x65, 0x74, 0x2D, 0x74, 0x6F, 0x6B,
    0x65, 0x6E, 0x0A], true, true⟩

/-- A filesystem holding only `secretTokenFile` at `tokenPath`. -/
def exampleFs : FileSystem :=
  fun p => if p = tokenPath then some secretTokenFile else none

/-- A readable, permission-checked token file containing only whitespace
(a space and a newline). -/
def wsFile : TokenFile := ⟨[0x20, 0x0A], true, true⟩

/-- A filesystem holding `wsFile` everywhere. -/
def wsFs : FileSystem := fun _ => some wsFile

/-! ## Helper lemmas -/

lemma step_trace_startup_free (exit : Bool) (s : LoopState) (ev : Event)
    (c : Cmd)
    (hc : c = .deactivateDns ∨ c = .notifierClose ∨ c = .sessionDisconnect) :
    c ∉ (step exit s ev).trace := by
  rcases hc with rfl | rfl | rfl <;>
    rcases ev with _ | _ | ⟨nres, rs⟩ | nres | _ |
      (⟨msg, auth⟩ | fr | _ | ⟨ip4, ip6, dns, r1, r2, r3⟩ | ⟨rt4, rt6, rr⟩) <;>
    simp only [step] <;> (repeat' split) <;> simp [StepOut.trace]

lemma runLoop_trace_startup_free (exit : Bool) (c : Cmd)
    (hc : c = .deactivateDns ∨ c = .notifierClose ∨ c = .sessionDisconnect) :
    ∀ (evs : List Event) (s : LoopState), c ∉ (runLoop exit s evs).2 := by
  intro evs
  induction evs with
  | nil => intro s; simp [runLoop]
  | cons ev rest ih =>
    intro s
    have hst := step_trace_startup_free exit s ev c hc
    simp only [runLoop]
    rcases hstep : step exit s ev with ⟨s2, t⟩ | t | ⟨e, t⟩ | ⟨e, t⟩ | ⟨m, t⟩ <;>
        rw [hstep] at hst <;> simp only [StepOut.trace] at hst <;> dsimp only
    · simp [hst, ih s2]
    · exact hst
    · exact hst
    · exact hst
    · exact hst

lemma runLoop_pending_append (exit : Bool) :
    ∀ (pre : List Event) (s s2 : LoopState) (t : List Cmd) (rest : List Event),
      runLoop exit s pre = (.pending s2, t) →
      runLoop exit s (pre ++ rest) =
        ((runLoop exit s2 rest).1, t ++ (runLoop exit s2 rest).2) := by
  intro pre
  induction pre with
  | nil =>
    intro s s2 t rest h
    simp only [runLoop] at h
    rw [Prod.mk.injEq] at h
    obtain ⟨h1, h2⟩ := h
    cases LoopExit.pending.inj h1
    subst h2
    simp
  | cons ev pr ih =>
    intro s s2 t rest h
    rw [List.cons_append]
    simp only [runLoop] at h ⊢
    rcases hstep : step exit s ev with ⟨s3, t0⟩ | t0 | ⟨e, t0⟩ | ⟨e, t0⟩ |
        ⟨m, t0⟩ <;> rw [hstep] at h <;> dsimp only at h ⊢
    · have h1 : (runLoop exit s3 pr).1 = .pending s2 := congrArg Prod.fst h
      have h2 : t0 ++ (runLoop exit s3 pr).2 = t := congrArg Prod.snd h
      have hr : runLoop exit s3 pr = (.pending s2, (runLoop exit s3 pr).2) := by
        conv_lhs => rw [← Prod.mk.eta (p := runLoop exit s3 pr)]
        rw [h1]
      rw [ih s3 s2 (runLoop exit s3 pr).2 rest hr]
      simp [← h2, List.append_assoc]
    · exact absurd (congrArg Prod.fst h) (by simp)
    · exact absurd (congrArg Prod.fst h) (by simp)
    · exact absurd (congrArg Prod.fst h) (by simp)
    · exact absurd (congrArg Prod.fst h) (by simp)

lemma run_allOk (exit : Bool) (su : Startup) (events : List Event)
    (h : su.allOk) :
    run exit su events = postLoop su (runLoop exit ⟨true⟩ events) := by
  obtain ⟨h1, h2, h3, h4, h5, h6, h7⟩ := h
  unfold run
  rw [h1, h2, h3, h4, h5, h6, h7]

lemma postLoop_fst (su su2 : Startup) (r : LoopExit × List Cmd) :
    (postLoop su r).1 = (postLoop su2 r).1 := by
  rcases r with ⟨le, t⟩
  rcases le with ⟨e | ⟨⟩⟩ | e | m | s <;> rfl

/-! ## Claims about token resolution -/

/-- C2: for every token resolution, if an environment-provided token is
present (and no command-line token overrides it), it is chosen over any
token file — the filesystem is never consulted — and after resolution the
token environment variable is removed, so reading it fails. -/
theorem C2_env_token_wins (t : String) (fs : FileSystem) (path : Path) :
    resolveTokenAtStartup none (some t) fs path = (.ok (some t), none) := rfl

/-- C3: with no environment token and no token file, resolution returns
`Ok(None)` (not an error), and the startup code converts this into a fatal
error whose message names the token environment variable and the file
path. -/
theorem C3_absent_token_fatal (fs : FileSystem) (path : Path)
    (h : fs path = none) :
    resolveTokenAtStartup none none fs path = (.ok none, none) ∧
    startupToken none none fs path =
      (.error (.noToken (noTokenMessage path)), none) ∧
    ∃ a b c, noTokenMessage path = a ++ TOKEN_ENV_KEY ++ b ++ path ++ c := by
  have h1 : resolveTokenAtStartup none none fs path = (.ok none, none) := by
    simp [resolveTokenAtStartup, get_token, read_token_file, h]
  refine ⟨h1, ?_,
    ⟨"Can\x27t find the Firezone token in $", " or in `", "`", rfl⟩⟩
  simp [startupToken, h1]

/-- Witness for C3 at a concrete empty filesystem. -/
theorem C3_absent_token_fatal_witness :
    ((fun _ => none : FileSystem) tokenPath = none) ∧
    startupToken none none (fun _ => none) tokenPath =
      (.error (.noToken (noTokenMessage tokenPath)), none) :=
  ⟨rfl, (C3_absent_token_fatal (fun _ => none) tokenPath rfl).2.1⟩

/-- C4: with no environment token and a readable, permission-checked token
file, the file bytes are decoded as UTF-8 — decode failure being a fatal
error — and the decoded text is trimmed of surrounding whitespace. -/
theorem C4_file_decode_trim (fs : FileSystem) (path : Path) (f : TokenFile)
    (hf : fs path = some f) (hp : f.permsOk = true) (hr : f.readable = true) :
    resolveTokenAtStartup none none fs path =
      ((match utf8DecodeString f.bytes with
        | none => Except.error TokenError.invalidUtf8
        | some s => Except.ok (some (rustTrim s))), none) := by
  rcases hu : utf8DecodeString f.bytes with _ | s <;>
    simp [resolveTokenAtStartup, get_token, read_token_file, hf, hp, hr, hu]

/-- Witness for C4: a file containing two spaces, `secret-token` and a
newline resolves to the token `secret-token`. -/
theorem C4_file_decode_trim_witness :
    resolveTokenAtStartup none none exampleFs tokenPath =
      (.ok (some "secret-token"), none) := by
  rw [C4_file_decode_trim exampleFs tokenPath secretTokenFile rfl rfl rfl]
  decide

/-- C9: `read_token_file` itself is a second consumer of the environment
source: if the token environment variable is still set when it runs, its
value is returned (any file is ignored, for every filesystem) and the
variable is removed from the environment. -/
theorem C9_file_reader_env_first (t : String) (fs : FileSystem)
    (path : Path) :
    read_token_file (some t) fs path = (.ok (some t), none) := rfl

/-- C10: a readable, permission-checked token file containing only
whitespace (or nothing) resolves to a present token whose value is the
empty string — not to `Ok(None)` — so resolution succeeds with an empty
credential. -/
theorem C10_whitespace_file_empty_token (fs : FileSystem) (path : Path)
    (f : TokenFile) (s : String) (hf : fs path = some f)
    (hp : f.permsOk = true) (hr : f.readable = true)
    (hd : utf8DecodeString f.bytes = some s)
    (hw : s.data.all rustIsWhitespace = true) :
    read_token_file none fs path = (.ok (some ""), none) ∧
    (read_token_file none fs path).1 ≠ .ok none := by
  have h0 : s.data.dropWhile rustIsWhitespace = [] := by
    rw [List.dropWhile_eq_nil_iff]
    exact fun x hx => List.all_eq_true.mp hw x hx
  have ht : rustTrim s = "" := by
    simp only [rustTrim, h0, List.reverse_nil, List.dropWhile_nil]
  constructor <;> simp [read_token_file, hf, hp, hr, hd, ht]

/-- Witness for C10 at a file containing a space and a newline. -/
theorem C10_whitespace_file_empty_token_witness :
    read_token_file none wsFs tokenPath = (.ok (some ""), none) ∧
    (read_token_file none wsFs tokenPath).1 ≠ .ok none :=
  C10_whitespace_file_empty_token wsFs tokenPath wsFile " \n" rfl rfl rfl
    (by decide) (by decide)

/-! ## Claims about the supervisor loop -/

/-- C5: the supervisor calls the DNS controller deactivate exactly once, as
the very first collaborator command — in particular before any
`session.set_dns` / `dns_controller.set_dns` and before the tunnel
interface is created — and a deactivate failure aborts startup (nothing
else runs except the final disconnect). -/
theorem C5_deactivate_once_first (exit : Bool) (su : Startup)
    (events : List Event) (h1 : su.terminateNew = Except.ok ())
    (h2 : su.hangupNew = Except.ok ()) :
    (∃ t, (run exit su events).2 = Cmd.deactivateDns :: t ∧
        Cmd.deactivateDns ∉ t) ∧
    ∀ e, su.deactivate = Except.error e →
      (run exit su events).1 = RunOutcome.err (.ext e) ∧
      (run exit su events).2 = [Cmd.deactivateDns, Cmd.sessionDisconnect] := by
  have hnd := runLoop_trace_startup_free exit Cmd.deactivateDns (Or.inl rfl)
    events ⟨true⟩
  obtain ⟨f1, f2, f3, f4, f5, f6, f7, f8, f9⟩ := su
  dsimp only at h1 h2 ⊢
  subst h1
  subst h2
  simp only [run]
  rcases f3 with e | ⟨⟩
  · refine ⟨⟨[Cmd.sessionDisconnect], rfl, by simp⟩, ?_⟩
    intro e2 he2
    cases Except.error.inj he2
    exact ⟨rfl, rfl⟩
  · rcases f4 with e | ⟨⟩
    · exact ⟨⟨[Cmd.sessionDisconnect], rfl, by simp⟩,
        fun e2 he2 => by simp at he2⟩
    · rcases f5 with e | ⟨⟩
      · exact ⟨⟨[Cmd.sessionDisconnect], rfl, by simp⟩,
          fun e2 he2 => by simp at he2⟩
      · rcases f6 with e | ⟨⟩
        · exact ⟨⟨[Cmd.sessionDisconnect], rfl, by simp⟩,
            fun e2 he2 => by simp at he2⟩
        · rcases f7 with e | ⟨⟩
          · exact ⟨⟨[Cmd.makeTun, Cmd.sessionDisconnect], rfl, by simp⟩,
              fun e2 he2 => by simp at he2⟩
          · rcases hr : runLoop exit ⟨true⟩ events with ⟨le, tl⟩
            rw [hr] at hnd
            have hnd2 : Cmd.deactivateDns ∉ tl := hnd
            refine ⟨?_, fun e2 he2 => by simp at he2⟩
            rcases le with ⟨e | ⟨⟩⟩ | e | m | sP
            · exact ⟨[Cmd.makeTun, Cmd.setTun, Cmd.sessionSetDns f8] ++ tl ++
                  [Cmd.notifierClose, Cmd.sessionDisconnect],
                by simp [postLoop, startupTrace],
                by simp [List.mem_append, hnd2]⟩
            · exact ⟨[Cmd.makeTun, Cmd.setTun, Cmd.sessionSetDns f8] ++ tl ++
                  [Cmd.notifierClose, Cmd.sessionDisconnect],
                by simp [postLoop, startupTrace],
                by simp [List.mem_append, hnd2]⟩
            · exact ⟨[Cmd.makeTun, Cmd.setTun, Cmd.sessionSetDns f8] ++ tl ++
                  [Cmd.sessionDisconnect],
                by simp [postLoop, startupTrace],
                by simp [List.mem_append, hnd2]⟩
            · exact ⟨[Cmd.makeTun, Cmd.setTun, Cmd.sessionSetDns f8] ++ tl,
                by simp [postLoop, startupTrace],
                by simp [List.mem_append, hnd2]⟩
            · exact ⟨[Cmd.makeTun, Cmd.setTun, Cmd.sessionSetDns f8] ++ tl,
                by simp [postLoop, startupTrace],
                by simp [List.mem_append, hnd2]⟩

/-- Witness for C5 with an empty event schedule. -/
theorem C5_deactivate_once_first_witness :
    suOk.terminateNew = Except.ok () ∧
    ∃ t, (run false suOk []).2 = Cmd.deactivateDns :: t ∧
      Cmd.deactivateDns ∉ t :=
  ⟨rfl, (C5_deactivate_once_first false suOk [] rfl rfl).1⟩

/-- C6: a `Disconnected` callback makes the loop exit with a failure
outcome wrapping the carried reason, and the disconnect command toward the
Control Session is still issued afterward (it is the last command of the
trace). -/
theorem C6_disconnected_reason (exit : Bool) (su : Startup)
    (pre rest : List Event) (reason : String) (isAuth : Bool)
    (s2 : LoopState) (t0 : List Cmd) (hsu : su.allOk)
    (hpre : runLoop exit ⟨true⟩ pre = (.pending s2, t0)) :
    run exit su (pre ++ Event.cbMsg (Msg.onDisconnect reason isAuth) :: rest) =
      (RunOutcome.err (.disconnected reason),
       startupTrace su ++ t0 ++ [Cmd.notifierClose, Cmd.sessionDisconnect]) := by
  rw [run_allOk _ _ _ hsu,
    runLoop_pending_append exit pre ⟨true⟩ s2 t0 _ hpre]
  simp [runLoop, step, postLoop, List.append_assoc]

/-- Witness for C6 with the reason `auth failed`. -/
theorem C6_disconnected_reason_witness :
    run false suOk [Event.cbMsg (Msg.onDisconnect "auth failed" false)] =
      (RunOutcome.err (.disconnected "auth failed"),
       startupTrace suOk ++ [] ++ [Cmd.notifierClose, Cmd.sessionDisconnect]) :=
  C6_disconnected_reason false suOk [] [] "auth failed" false ⟨true⟩ []
    ⟨rfl, rfl, rfl, rfl, rfl, rfl, rfl⟩ rfl

/-- C7: a `TerminatingGracefully` callback aborts the process in every
supervisor state: the dispatch panics, the loop never continues (nothing
after the message is processed), and the message is never ignored. -/
theorem C7_terminating_gracefully_aborts (exit : Bool) (su : Startup)
    (pre rest : List Event) (s2 : LoopState) (t0 : List Cmd)
    (hsu : su.allOk)
    (hpre : runLoop exit ⟨true⟩ pre = (.pending s2, t0)) :
    run exit su (pre ++ Event.cbMsg Msg.terminatingGracefully :: rest) =
      (RunOutcome.aborted
        "The standalone Client does not send `TerminatingGracefully` messages",
       startupTrace su ++ t0) := by
  rw [run_allOk _ _ _ hsu,
    runLoop_pending_append exit pre ⟨true⟩ s2 t0 _ hpre]
  simp [runLoop, step, postLoop]

/-- Witness for C7 after one hangup event. -/
theorem C7_terminating_gracefully_aborts_witness :
    run false suOk [Event.hangup, Event.cbMsg Msg.terminatingGracefully] =
      (RunOutcome.aborted
        "The standalone Client does not send `TerminatingGracefully` messages",
       startupTrace suOk ++ [Cmd.sessionReset]) :=
  C7_terminating_gracefully_aborts false suOk [Event.hangup] [] ⟨true⟩
    [Cmd.sessionReset] ⟨rfl, rfl, rfl, rfl, rfl, rfl, rfl⟩ rfl

/-- C8: in `--exit` mode, an `InterfaceConfigSet` message whose application
succeeds (addresses to the tunnel device, then resolvers to the DNS
controller, then — on the first configuration — the service-controller
notification) terminates the loop with a success outcome immediately: no
later event is processed. -/
theorem C8_exit_after_first_config (su : Startup) (pre rest : List Event)
    (ip4 ip6 : String) (dns : List String) (s2 : LoopState) (t0 : List Cmd)
    (hsu : su.allOk)
    (hpre : runLoop true ⟨true⟩ pre = (.pending s2, t0)) :
    run true su (pre ++ Event.cbMsg (Msg.onSetInterfaceConfig ip4 ip6 dns
        (Except.ok ()) (Except.ok ()) (Except.ok ())) :: rest) =
      (RunOutcome.ok,
       startupTrace su ++ t0 ++ [Cmd.tunSetIps ip4 ip6, Cmd.dnsSetDns dns] ++
         (if s2.instant then [Cmd.notifyServiceController] else []) ++
         [Cmd.notifierClose, Cmd.sessionDisconnect]) := by
  rw [run_allOk _ _ _ hsu,
    runLoop_pending_append true pre ⟨true⟩ s2 t0 _ hpre]
  rcases s2 with ⟨inst⟩
  cases inst <;> simp [runLoop, step, postLoop, List.append_assoc]

/-- Witness for C8 at a concrete interface configuration. -/
theorem C8_exit_after_first_config_witness :
    run true suOk [Event.cbMsg (Msg.onSetInterfaceConfig "100.64.0.2"
        "fd00::2" ["100.100.111.1"] (Except.ok ()) (Except.ok ())
        (Except.ok ())), Event.terminate] =
      (RunOutcome.ok,
       startupTrace suOk ++ [] ++
         [Cmd.tunSetIps "100.64.0.2" "fd00::2",
          Cmd.dnsSetDns ["100.100.111.1"]] ++
         [Cmd.notifyServiceController] ++
         [Cmd.notifierClose, Cmd.sessionDisconnect]) :=
  C8_exit_after_first_config suOk [] [Event.terminate] "100.64.0.2" "fd00::2"
    ["100.100.111.1"] ⟨true⟩ [] ⟨rfl, rfl, rfl, rfl, rfl, rfl, rfl⟩ rfl

/-- C1 as stated is false: on the DNS re-query failure exit path the
network-change notifier is NOT closed — the `?` operator returns from the
async block past line 279 — although the disconnect is still issued. -/
theorem C1_counterexample :
    (run false suOk
        [Event.dnsChanged (Except.error "watch failed") (Except.ok [])]).1 =
      RunOutcome.err (.ext "watch failed") ∧
    Cmd.notifierClose ∉
      (run false suOk
        [Event.dnsChanged (Except.error "watch failed") (Except.ok [])]).2 ∧
    Cmd.sessionDisconnect ∈
      (run false suOk
        [Event.dnsChanged (Except.error "watch failed") (Except.ok [])]).2 := by
  decide

/-- C1 amended: on every loop-exit path the Control Session disconnect is
issued exactly once, after the loop; the network-change notifier close
happens exactly on the `break` exits (terminate signal, disconnect
callback, `--exit` shutdown) — where any close error never changes the
outcome — while the error-propagation exits (DNS re-query failure, DNS
set/flush failure, address/route application failure, unexpected end of
the callback stream) skip the notifier close but still issue the
disconnect. -/
theorem C1_teardown (exit : Bool) (su : Startup) (events : List Event)
    (h : su.allOk) :
    (∀ r t, runLoop exit ⟨true⟩ events = (.brk r, t) →
      run exit su events =
        ((match r with
          | Except.ok _ => RunOutcome.ok
          | Except.error e => RunOutcome.err e),
         startupTrace su ++ t ++ [Cmd.notifierClose, Cmd.sessionDisconnect]) ∧
      Cmd.sessionDisconnect ∉ t ∧ Cmd.notifierClose ∉ t) ∧
    (∀ e t, runLoop exit ⟨true⟩ events = (.prop e, t) →
      run exit su events =
        (RunOutcome.err e, startupTrace su ++ t ++ [Cmd.sessionDisconnect]) ∧
      Cmd.sessionDisconnect ∉ t ∧ Cmd.notifierClose ∉ t) ∧
    (∀ x y, (run exit { su with notifierClose := x } events).1 =
        (run exit { su with notifierClose := y } events).1) := by
  refine ⟨?_, ?_, ?_⟩
  · intro r t hr
    have hd := runLoop_trace_startup_free exit Cmd.sessionDisconnect
      (Or.inr (Or.inr rfl)) events ⟨true⟩
    have hc := runLoop_trace_startup_free exit Cmd.notifierClose
      (Or.inr (Or.inl rfl)) events ⟨true⟩
    rw [hr] at hd hc
    rw [run_allOk _ _ _ h, hr]
    rcases r with e | ⟨⟩
    · exact ⟨rfl, hd, hc⟩
    · exact ⟨rfl, hd, hc⟩
  · intro e t hr
    have hd := runLoop_trace_startup_free exit Cmd.sessionDisconnect
      (Or.inr (Or.inr rfl)) events ⟨true⟩
    have hc := runLoop_trace_startup_free exit Cmd.notifierClose
      (Or.inr (Or.inl rfl)) events ⟨true⟩
    rw [hr] at hd hc
    rw [run_allOk _ _ _ h, hr]
    exact ⟨rfl, hd, hc⟩
  · intro x y
    rw [run_allOk exit { su with notifierClose := x } events h,
      run_allOk exit { su with notifierClose := y } events h]
    exact postLoop_fst _ _ _

/-- Witness for the amended C1 on the terminate-signal exit path. -/
theorem C1_teardown_witness :
    suOk.allOk ∧
    run false suOk [Event.terminate] =
      (RunOutcome.ok,
       startupTrace suOk ++ [] ++
         [Cmd.notifierClose, Cmd.sessionDisconnect]) := by
  refine ⟨⟨rfl, rfl, rfl, rfl, rfl, rfl, rfl⟩, ?_⟩
  exact ((C1_teardown false suOk [Event.terminate]
    ⟨rfl, rfl, rfl, rfl, rfl, rfl, rfl⟩).1 (Except.ok ()) [] rfl).1

end Standalone
